import Mathlib

/-!
Shallow embedding of the dnspod-go client (records.go and the domains source
file) and proofs about its payload construction and response handling.

Modelling conventions:
  * Go `url.Values` (a multimap of form fields) is modelled as an ordered list
    of key/value pairs; `Add` appends a pair, `Set` removes every pair with the
    key and appends one pair, exactly as the per-key view of `url.Values`.
  * The external Transport collaborator (`Client.post`, `CommonParams.toPayLoad`)
    is not part of the sources; following the spec it is modelled abstractly:
    the common parameters are an arbitrary payload held by the client, and the
    post call is a function from the request to an outcome (transport error
    with an optional response, or success with a decoded envelope).
  * Go `error` results are modelled as `Option String` carrying the error text;
    nil pointers/slices are `Option`; `strconv.Itoa` on Go ints is `toString`
    on `Int`; `json.Number` fields are their underlying strings.
-/

namespace Dnspod

/-- Form payload: Go `url.Values`, as an ordered list of key/value pairs. -/
abbrev Values := List (String × String)

/-- Go `url.Values.Add`: append one key/value pair. -/
def Values.add (l : Values) (k v : String) : Values := l ++ [(k, v)]

/-- Go `url.Values.Set`: replace every entry of the key by the single value. -/
def Values.set (l : Values) (k v : String) : Values :=
  (l.filter fun p => p.1 ≠ k) ++ [(k, v)]

/-- All values stored under a key, in order (the per-key view of `url.Values`). -/
def Values.valuesOf (l : Values) (k : String) : List String :=
  l.filterMap fun p => if p.1 = k then some p.2 else none

/-- Whether the payload contains the key at all. -/
def Values.hasKey (l : Values) (k : String) : Bool :=
  l.any fun p => p.1 = k

/-- Response status envelope: `{"status": {"code": ..., "message": ...}}`. -/
structure Status where
  Code : String := ""
  Message : String := ""
deriving Repr, DecidableEq

/-- DomainInfo: aggregate counts (all `json.Number`, modelled as strings). -/
structure DomainInfo where
  DomainTotal : String := ""
  AllTotal : String := ""
  MineTotal : String := ""
  ShareTotal : String := ""
  VipTotal : String := ""
  IsMarkTotal : String := ""
  PauseTotal : String := ""
  ErrorTotal : String := ""
  LockTotal : String := ""
  SpamTotal : String := ""
  VipExpire : String := ""
  ShareOutTotal : String := ""
deriving Repr, DecidableEq

/-- Domain entity (Go struct `Domain`; `json.Number` fields are strings). -/
structure Domain where
  ID : String := ""
  Name : String := ""
  PunyCode : String := ""
  Grade : String := ""
  GradeTitle : String := ""
  Status : String := ""
  ExtStatus : String := ""
  Records : String := ""
  GroupID : String := ""
  IsMark : String := ""
  Remark : String := ""
  IsVIP : String := ""
  SearchenginePush : String := ""
  UserID : String := ""
  CreatedOn : String := ""
  UpdatedOn : String := ""
  TTL : String := ""
  CNameSpeedUp : String := ""
  Owner : String := ""
  AuthToAnquanBao : Bool := false
deriving Repr, DecidableEq

/-- Record entity (Go struct `Record`; the Go field `Type` is `Type'` here,
`Weight *int` is `Option Int`). -/
structure Record where
  ID : String := ""
  Name : String := ""
  Line : String := ""
  LineID : String := ""
  Type' : String := ""
  TTL : String := ""
  Value : String := ""
  MX : String := ""
  Enabled : String := ""
  Status : String := ""
  MonitorStatus : String := ""
  Remark : String := ""
  UpdateOn : String := ""
  UseAQB : String := ""
  Weight : Option Int := none
deriving Repr, DecidableEq

/-- RecordModify: reduced projection returned by the update operation. -/
structure RecordModify where
  ID : String := ""
  Name : String := ""
  Value : String := ""
  Status : String := ""
deriving Repr, DecidableEq

/-- Envelope of `Record.List` responses. -/
structure recordsWrapper where
  Status : Status := {}
  Info : DomainInfo := {}
  Records : List Record := []
deriving Repr, DecidableEq

/-- Envelope of `Record.Create` / `Record.Info` / `Record.Remove` responses. -/
structure recordWrapper where
  Status : Status := {}
  Info : DomainInfo := {}
  Record : Record := {}
deriving Repr, DecidableEq

/-- Envelope of `Record.Modify` responses. -/
structure recordModifyWrapper where
  Status : Status := {}
  Record : RecordModify := {}
deriving Repr, DecidableEq

/-- Envelope of `Domain.List` responses. -/
structure domainListWrapper where
  Status : Status := {}
  Info : DomainInfo := {}
  Domains : List Domain := []
deriving Repr, DecidableEq

/-- Envelope of `Domain.Create` / `Domain.Info` / `Domain.Remove` responses. -/
structure domainWrapper where
  Status : Status := {}
  Info : DomainInfo := {}
  Domain : Domain := {}
deriving Repr, DecidableEq

/-- Modelled from the spec: the transport-level `*Response` object is opaque to
this client; only its identity and nil-ness matter, so it carries a tag. -/
structure Response where
  tag : Nat := 0
deriving Repr, DecidableEq

/-- Modelled from the spec: outcome of the Transport collaborator's
`post(method, payload, &envelope)` call — either a transport error (possibly
with a response object) or success with the decoded envelope. -/
inductive PostOutcome (α : Type) where
  | err (res : Option Response) (msg : String)
  | ok (res : Response) (envelope : α)
deriving Repr

/-- Modelled from the spec: the client holds common authentication/identity
parameters; `CommonParams.toPayLoad()` is abstracted as the payload it
produces. -/
structure Client where
  CommonParams : Values := []

/-- An outbound request: the remote method name and the form payload. -/
structure Request where
  method : String
  payload : Values
deriving Repr, DecidableEq

/-- Go `strconv.Itoa` on an int. -/
def itoa (n : Int) : String := toString n

def methodRecordList : String := "Record.List"
def methodRecordCreate : String := "Record.Create"
def methodRecordInfo : String := "Record.Info"
def methodRecordRemove : String := "Record.Remove"
def methodRecordModify : String := "Record.Modify"

def methodDomainList : String := "Domain.List"
def methodDomainCreate : String := "Domain.Create"
def methodDomainInfo : String := "Domain.Info"
def methodDomainRemove : String := "Domain.Remove"

/-- Go struct `RecordParam` (embedded in `ListParams`; the embedded pointer is
modelled as a value). -/
structure RecordParam where
  DomainID : String := ""
  Domain : String := ""
deriving Repr, DecidableEq

/-- `RecordParam.ToURLValues` returns the values unchanged. -/
def RecordParam.ToURLValues (_p : RecordParam) (values : Values) : Values :=
  values

/-- Go struct `ListParams`. -/
structure ListParams extends RecordParam where
  Offset : String := ""
  Length : String := ""
  SubDomain : String := ""
  RecordType : String := ""
  RecordLine : String := ""
  RecordLineID : String := ""
  keyword : String := ""
deriving Repr, DecidableEq

/-- `ListParams.ToURLValues`: add each non-empty filter field. -/
def ListParams.ToURLValues (p : ListParams) (values : Values) : Values :=
  let values := p.toRecordParam.ToURLValues values
  let values := if p.Offset ≠ "" then Values.add values "offset" p.Offset else values
  let values := if p.Length ≠ "" then Values.add values "length" p.Length else values
  let values := if p.SubDomain ≠ "" then Values.add values "sub_domain" p.SubDomain else values
  let values := if p.RecordType ≠ "" then Values.add values "record_type" p.RecordType else values
  let values := if p.RecordLine ≠ "" then Values.add values "record_line" p.RecordLine else values
  let values := if p.RecordLineID ≠ "" then Values.add values "record_line_id" p.RecordLineID else values
  let values := if p.keyword ≠ "" then Values.add values "keyword" p.keyword else values
  values

/-- The request built by `RecordsService.List` (payload lines of the source
before the post call). -/
def recordListRequest (c : Client) (p : ListParams) : Request :=
  let payload := c.CommonParams
  let payload := p.ToURLValues payload
  let payload := if p.DomainID ≠ "" then Values.add payload "domain_id" p.DomainID else payload
  let payload := if p.Domain ≠ "" then Values.add payload "domain" p.Domain else payload
  let payload := if p.RecordType ≠ "" then Values.add payload "record_type" p.RecordType else payload
  { method := methodRecordList, payload := payload }

/-- `RecordsService.List`: post, transport-error passthrough, then the status
check accepting codes "1" and "10". -/
def RecordsService.List (c : Client) (post : Request → PostOutcome recordsWrapper)
    (p : ListParams) : Option (List Record) × Option Response × Option String :=
  match post (recordListRequest c p) with
  | .err res msg => (none, res, some msg)
  | .ok res w =>
    if w.Status.Code ≠ "1" ∧ w.Status.Code ≠ "10" then
      (none, none, some ("could not get domains: " ++ w.Status.Message))
    else
      (some w.Records, some res, none)

/-- The request built by `RecordsService.Create`. -/
def recordCreateRequest (c : Client) (domain domainId : String) (a : Record) : Request :=
  let payload := c.CommonParams
  let payload := Values.add payload "domain" domain
  let payload := Values.add payload "domain_id" domainId
  let payload := if a.Name ≠ "" then Values.add payload "sub_domain" a.Name else payload
  let payload := if a.Type' ≠ "" then Values.add payload "record_type" a.Type' else payload
  let payload := if a.Line ≠ "" then Values.add payload "record_line" a.Line else payload
  let payload := if a.LineID ≠ "" then Values.add payload "record_line_id" a.LineID else payload
  let payload := if a.Value ≠ "" then Values.add payload "value" a.Value else payload
  let payload := if a.MX ≠ "" then Values.add payload "mx" a.MX else payload
  let payload := if a.TTL ≠ "" then Values.add payload "ttl" a.TTL else payload
  let payload := if a.Status ≠ "" then Values.add payload "status" a.Status else payload
  let payload := match a.Weight with
    | some w => Values.add payload "weight" (itoa w)
    | none => payload
  { method := methodRecordCreate, payload := payload }

/-- `RecordsService.Create`: post, then status check against code "1". -/
def RecordsService.Create (c : Client) (post : Request → PostOutcome recordWrapper)
    (domain domainId : String) (a : Record) : Record × Option Response × Option String :=
  match post (recordCreateRequest c domain domainId a) with
  | .err res msg => ({}, res, some msg)
  | .ok res w =>
    if w.Status.Code ≠ "1" then
      (w.Record, none, some ("could not create domains: " ++ w.Status.Message))
    else
      (w.Record, some res, none)

/-- The request built by `RecordsService.Get` (`record_id` via `strconv.Itoa`). -/
def recordGetRequest (c : Client) (domain domainId : String) (recordID : Int) : Request :=
  let payload := c.CommonParams
  let payload := Values.add payload "domain" domain
  let payload := Values.add payload "domain_id" domainId
  let payload := Values.add payload "record_id" (itoa recordID)
  { method := methodRecordInfo, payload := payload }

/-- `RecordsService.Get`: post, then status check against code "1". -/
def RecordsService.Get (c : Client) (post : Request → PostOutcome recordWrapper)
    (domain domainId : String) (recordID : Int) : Record × Option Response × Option String :=
  match post (recordGetRequest c domain domainId recordID) with
  | .err res msg => ({}, res, some msg)
  | .ok res w =>
    if w.Status.Code ≠ "1" then
      (w.Record, none, some ("could not get domains: " ++ w.Status.Message))
    else
      (w.Record, some res, none)

/-- The request built by `RecordsService.Update`. -/
def recordUpdateRequest (c : Client) (domainId domain recordID : String) (a : Record) : Request :=
  let payload := c.CommonParams
  let payload := Values.add payload "domain_id" domainId
  let payload := Values.add payload "domain" domain
  let payload := Values.add payload "record_id" recordID
  let payload := if a.Name ≠ "" then Values.add payload "sub_domain" a.Name else payload
  let payload := if a.Type' ≠ "" then Values.add payload "record_type" a.Type' else payload
  let payload := if a.Line ≠ "" then Values.add payload "record_line" a.Line else payload
  let payload := if a.LineID ≠ "" then Values.add payload "record_line_id" a.LineID else payload
  let payload := if a.Value ≠ "" then Values.add payload "value" a.Value else payload
  let payload := if a.MX ≠ "" then Values.add payload "mx" a.MX else payload
  let payload := if a.TTL ≠ "" then Values.add payload "ttl" a.TTL else payload
  let payload := if a.Status ≠ "" then Values.add payload "status" a.Status else payload
  let payload := match a.Weight with
    | some w => Values.add payload "weight" (itoa w)
    | none => payload
  { method := methodRecordModify, payload := payload }

/-- `RecordsService.Update`: post, then status check against code "1". -/
def RecordsService.Update (c : Client) (post : Request → PostOutcome recordModifyWrapper)
    (domainId domain recordID : String) (a : Record) :
    RecordModify × Option Response × Option String :=
  match post (recordUpdateRequest c domainId domain recordID a) with
  | .err res msg => ({}, res, some msg)
  | .ok res w =>
    if w.Status.Code ≠ "1" then
      (w.Record, none, some ("could not get domains: " ++ w.Status.Message))
    else
      (w.Record, some res, none)

/-- The request built by `RecordsService.Delete` (`domain_id` via `strconv.Itoa`). -/
def recordDeleteRequest (c : Client) (domainId : Int) (domain recordID : String) : Request :=
  let payload := c.CommonParams
  let payload := Values.add payload "domain_id" (itoa domainId)
  let payload := Values.add payload "domain" domain
  let payload := Values.add payload "record_id" recordID
  { method := methodRecordRemove, payload := payload }

/-- `RecordsService.Delete`: post, then status check against code "1". -/
def RecordsService.Delete (c : Client) (post : Request → PostOutcome recordWrapper)
    (domainId : Int) (domain recordID : String) : Option Response × Option String :=
  match post (recordDeleteRequest c domainId domain recordID) with
  | .err res msg => (res, some msg)
  | .ok res w =>
    if w.Status.Code ≠ "1" then
      (none, some ("could not get domains: " ++ w.Status.Message))
    else
      (some res, none)

/-- The request built by `DomainsService.List` (common parameters only). -/
def domainListRequest (c : Client) : Request :=
  { method := methodDomainList, payload := c.CommonParams }

/-- `DomainsService.List`: post, then status check against code "1". -/
def DomainsService.List (c : Client) (post : Request → PostOutcome domainListWrapper) :
    Option (List Domain) × Option Response × Option String :=
  match post (domainListRequest c) with
  | .err res msg => (none, res, some msg)
  | .ok res w =>
    if w.Status.Code ≠ "1" then
      (none, none, some ("could not get domains: " ++ w.Status.Message))
    else
      (some w.Domains, some res, none)

/-- The request built by `DomainsService.Create` (`Set` on three keys;
`GroupID.String()` is the underlying string of the `json.Number`). -/
def domainCreateRequest (c : Client) (domainAttributes : Domain) : Request :=
  let payload := c.CommonParams
  let payload := Values.set payload "domain" domainAttributes.Name
  let payload := Values.set payload "group_id" domainAttributes.GroupID
  let payload := Values.set payload "is_mark" domainAttributes.IsMark
  { method := methodDomainCreate, payload := payload }

/-- `DomainsService.Create`: post; NO status-code check before returning. -/
def DomainsService.Create (c : Client) (post : Request → PostOutcome domainWrapper)
    (domainAttributes : Domain) : Domain × Option Response × Option String :=
  match post (domainCreateRequest c domainAttributes) with
  | .err res msg => ({}, res, some msg)
  | .ok res w => (w.Domain, some res, none)

/-- The request built by `DomainsService.Get`. -/
def domainGetRequest (c : Client) (id domain : String) : Request :=
  let payload := c.CommonParams
  let payload := Values.set payload "domain_id" id
  let payload := Values.set payload "domain" domain
  { method := methodDomainInfo, payload := payload }

/-- `DomainsService.Get`: post; NO status-code check before returning. -/
def DomainsService.Get (c : Client) (post : Request → PostOutcome domainWrapper)
    (id domain : String) : Domain × Option Response × Option String :=
  match post (domainGetRequest c id domain) with
  | .err res msg => ({}, res, some msg)
  | .ok res w => (w.Domain, some res, none)

/-- The request built by `DomainsService.Delete`. -/
def domainDeleteRequest (c : Client) (id domain : String) : Request :=
  let payload := c.CommonParams
  let payload := Values.set payload "domain_id" id
  let payload := Values.set payload "domain" domain
  { method := methodDomainRemove, payload := payload }

/-- `DomainsService.Delete`: the post result is returned directly, with NO
status-code check. -/
def DomainsService.Delete (c : Client) (post : Request → PostOutcome domainWrapper)
    (id domain : String) : Option Response × Option String :=
  match post (domainDeleteRequest c id domain) with
  | .err res msg => (res, some msg)
  | .ok res _w => (some res, none)

/-- Substring containment, used to state that an error text carries the
server-supplied message. -/
def containsStr (s t : String) : Prop := ∃ a b, s = a ++ t ++ b

/-- A sample client whose common parameters are authentication fields. -/
def cEx : Client := { CommonParams := [("login_token", "tok"), ("format", "json")] }

/-- A sample transport response object. -/
def resEx : Response := {}

/-- Sample list parameters with a record-type filter. -/
def pEx : ListParams := { DomainID := "42", Domain := "example.com", RecordType := "A" }

/-- Sample record attributes with an explicit zero weight. -/
def aEx : Record := { Name := "www", Type' := "A", Value := "1.2.3.4", Weight := some 0 }

/-! Lemmas about the payload multimap. -/

@[simp] theorem valuesOf_nil (k : String) : Values.valuesOf [] k = [] := rfl

theorem valuesOf_append (l m : Values) (k : String) :
    Values.valuesOf (l ++ m) k = Values.valuesOf l k ++ Values.valuesOf m k := by
  simp [Values.valuesOf]

@[simp] theorem valuesOf_add (l : Values) (k v k' : String) :
    Values.valuesOf (Values.add l k v) k' =
      Values.valuesOf l k' ++ if k = k' then [v] else [] := by
  simp only [Values.add, Values.valuesOf, List.filterMap_append]
  congr 1
  split <;> simp_all

theorem valuesOf_filter_ne (l : Values) (k k' : String) :
    Values.valuesOf (l.filter fun p => p.1 ≠ k) k' =
      if k = k' then [] else Values.valuesOf l k' := by
  induction l with
  | nil => split <;> rfl
  | cons p t ih =>
    by_cases hpk : p.1 = k <;> by_cases hpk' : p.1 = k'
    all_goals simp_all [Values.valuesOf, List.filter_cons, List.filterMap_cons]
    all_goals (split <;> simp_all)

@[simp] theorem valuesOf_set (l : Values) (k v k' : String) :
    Values.valuesOf (Values.set l k v) k' =
      if k = k' then [v] else Values.valuesOf l k' := by
  rw [Values.set, valuesOf_append, valuesOf_filter_ne]
  by_cases h : k = k' <;> simp [h, Values.valuesOf]

@[simp] theorem valuesOf_ite (b : Prop) [Decidable b] (l m : Values) (k : String) :
    Values.valuesOf (if b then l else m) k =
      if b then Values.valuesOf l k else Values.valuesOf m k := by
  split <;> rfl

theorem hasKey_eq_false_iff (l : Values) (k : String) :
    Values.hasKey l k = false ↔ Values.valuesOf l k = [] := by
  induction l with
  | nil => simp [Values.hasKey, Values.valuesOf]
  | cons p t ih =>
    simp only [Values.hasKey, Values.valuesOf, List.any_cons, List.filterMap_cons] at ih ⊢
    by_cases hp : p.1 = k
    · simp [hp]
    · simp [hp, ih]

theorem add_append (l r : Values) (k v : String) :
    Values.add (l ++ r) k v = l ++ Values.add r k v := by
  simp [Values.add]

theorem ite_append (b : Prop) [Decidable b] (l r₁ r₂ : Values) :
    (if b then l ++ r₁ else l ++ r₂) = l ++ (if b then r₁ else r₂) := by
  split <;> rfl

theorem ite_append_self (b : Prop) [Decidable b] (l r : Values) :
    (if b then l ++ r else l) = l ++ (if b then r else []) := by
  split <;> simp

/-! Claim theorems. -/

/-- C8: every public operation posts to exactly the remote method name of the
wire-contract table: Domain.List, Domain.Create, Domain.Info, Domain.Remove for
the domain operations and Record.List, Record.Create, Record.Info,
Record.Modify, Record.Remove for the record operations. -/
theorem wire_method_names (c : Client) (p : ListParams) (d i rid : String)
    (n m : Int) (a : Record) (da : Domain) :
    (domainListRequest c).method = "Domain.List" ∧
    (domainCreateRequest c da).method = "Domain.Create" ∧
    (domainGetRequest c i d).method = "Domain.Info" ∧
    (domainDeleteRequest c i d).method = "Domain.Remove" ∧
    (recordListRequest c p).method = "Record.List" ∧
    (recordCreateRequest c d i a).method = "Record.Create" ∧
    (recordGetRequest c d i n).method = "Record.Info" ∧
    (recordUpdateRequest c i d rid a).method = "Record.Modify" ∧
    (recordDeleteRequest c m d rid).method = "Record.Remove" :=
  ⟨rfl, rfl, rfl, rfl, rfl, rfl, rfl, rfl, rfl⟩

/-- C2: DomainsService.Create, Get and Delete perform no status-code check:
whenever the transport call succeeds, they return the decoded Domain entity
(resp. just the response, for Delete) with a nil error, for every decoded
envelope and hence for every status code. -/
theorem domains_unchecked_status (c : Client) (da : Domain) (i d : String)
    (res : Response) (w : domainWrapper) :
    DomainsService.Create c (fun _ => .ok res w) da = (w.Domain, some res, none) ∧
    DomainsService.Get c (fun _ => .ok res w) i d = (w.Domain, some res, none) ∧
    DomainsService.Delete c (fun _ => .ok res w) i d = (some res, none) :=
  ⟨rfl, rfl, rfl⟩

/-- C5 counterexample: with GroupID and IsMark unset (empty), the payload built
by DomainsService.Create still contains the "group_id" and "is_mark" keys
(bound to the empty string), so the keys are not absent as the claim states. -/
theorem domainsCreate_suppression_counterexample :
    Values.hasKey
      (domainCreateRequest { CommonParams := [] } { Name := "example.com" }).payload
      "group_id" = true ∧
    Values.hasKey
      (domainCreateRequest { CommonParams := [] } { Name := "example.com" }).payload
      "is_mark" = true ∧
    Values.valuesOf
      (domainCreateRequest { CommonParams := [] } { Name := "example.com" }).payload
      "group_id" = [""] := by
  refine ⟨by decide, by decide, by decide⟩

/-- C5 amended: DomainsService.Create always sends the "domain", "group_id" and
"is_mark" keys, using Set semantics — when the group assignment or the marked
flag is omitted from the input the key is still present, bound to the empty
string; zero-value suppression does not apply to this call. -/
theorem domainsCreate_always_sends_group_and_mark (c : Client) (da : Domain) :
    Values.valuesOf (domainCreateRequest c da).payload "domain" = [da.Name] ∧
    Values.valuesOf (domainCreateRequest c da).payload "group_id" = [da.GroupID] ∧
    Values.valuesOf (domainCreateRequest c da).payload "is_mark" = [da.IsMark] := by
  simp [domainCreateRequest]

/-- C6 counterexample: a payload field can be overwritten by an empty value —
starting from a common parameter set holding group_id = "5", DomainsService.Create
with an unset GroupID replaces it by the empty string. -/
theorem payload_overwrite_counterexample :
    Values.valuesOf
      (({ CommonParams := [("group_id", "5")] } : Client)).CommonParams "group_id" = ["5"] ∧
    Values.valuesOf
      (domainCreateRequest { CommonParams := [("group_id", "5")] }
        { Name := "example.com" }).payload "group_id" = [""] := by
  refine ⟨by decide, by decide⟩

/-- C6 amended: in every operation the common base parameter set is the start
of the payload and operation-specific fields are layered on top; the record
operations only append, so the common set is an initial segment of the final
payload and no field is ever overwritten; the domain operations replace exactly
the keys they set (leaving every other key untouched), and may replace an
existing field even with an empty value. -/
theorem payload_merge_policy_amended (c : Client) (p : ListParams)
    (d i rid : String) (n : Int) (a : Record) (da : Domain) (k : String) :
    (∃ r, (recordListRequest c p).payload = c.CommonParams ++ r) ∧
    (∃ r, (recordCreateRequest c d i a).payload = c.CommonParams ++ r) ∧
    (∃ r, (recordGetRequest c d i n).payload = c.CommonParams ++ r) ∧
    (∃ r, (recordUpdateRequest c i d rid a).payload = c.CommonParams ++ r) ∧
    (∃ r, (recordDeleteRequest c n d rid).payload = c.CommonParams ++ r) ∧
    ((domainListRequest c).payload = c.CommonParams) ∧
    (k ≠ "domain" → k ≠ "group_id" → k ≠ "is_mark" →
      Values.valuesOf (domainCreateRequest c da).payload k =
        Values.valuesOf c.CommonParams k) ∧
    (k ≠ "domain_id" → k ≠ "domain" →
      Values.valuesOf (domainGetRequest c i d).payload k =
        Values.valuesOf c.CommonParams k) ∧
    (k ≠ "domain_id" → k ≠ "domain" →
      Values.valuesOf (domainDeleteRequest c i d).payload k =
        Values.valuesOf c.CommonParams k) := by
  refine ⟨?_, ?_, ?_, ?_, ?_, rfl, ?_, ?_, ?_⟩
  · simp only [recordListRequest, ListParams.ToURLValues, RecordParam.ToURLValues,
      Values.add, List.append_assoc, ite_append_self, ite_append]
    exact ⟨_, rfl⟩
  · cases hw : a.Weight <;>
      simp only [recordCreateRequest, hw, Values.add, List.append_assoc, ite_append_self,
        ite_append] <;>
      exact ⟨_, rfl⟩
  · simp only [recordGetRequest, Values.add, List.append_assoc]
    exact ⟨_, rfl⟩
  · cases hw : a.Weight <;>
      simp only [recordUpdateRequest, hw, Values.add, List.append_assoc, ite_append_self,
        ite_append] <;>
      exact ⟨_, rfl⟩
  · simp only [recordDeleteRequest, Values.add, List.append_assoc]
    exact ⟨_, rfl⟩
  · intro h1 h2 h3
    simp [domainCreateRequest, Ne.symm h1, Ne.symm h2, Ne.symm h3]
  · intro h1 h2
    simp [domainGetRequest, Ne.symm h1, Ne.symm h2]
  · intro h1 h2
    simp [domainDeleteRequest, Ne.symm h1, Ne.symm h2]

/-- Witness for the amended C6 theorem at concrete inputs, discharging the
key-disequality hypotheses at k = "login_token". -/
theorem payload_merge_policy_amended_witness :
    Values.valuesOf (domainCreateRequest cEx { Name := "example.com" }).payload
      "login_token" = Values.valuesOf cEx.CommonParams "login_token" :=
  (payload_merge_policy_amended cEx pEx "example.com" "42" "7" 3 aEx
    { Name := "example.com" } "login_token").2.2.2.2.2.2.1
    (by decide) (by decide) (by decide)

/-- C1: RecordsService.List returns the decoded record sequence with no error
when the decoded status code is "1" or "10"; for every other code it returns a
nil record sequence and an error whose text contains the server-supplied
status message. -/
theorem recordsList_status_codes (c : Client) (p : ListParams)
    (res : Response) (w : recordsWrapper) :
    (w.Status.Code = "1" ∨ w.Status.Code = "10" →
      RecordsService.List c (fun _ => .ok res w) p = (some w.Records, some res, none)) ∧
    (w.Status.Code ≠ "1" → w.Status.Code ≠ "10" →
      RecordsService.List c (fun _ => .ok res w) p =
        (none, none, some ("could not get domains: " ++ w.Status.Message)) ∧
      containsStr ("could not get domains: " ++ w.Status.Message) w.Status.Message) := by
  constructor
  · intro h
    rcases h with h | h <;> simp [RecordsService.List, h]
  · intro h1 h10
    refine ⟨by simp [RecordsService.List, h1, h10], "could not get domains: ", "", ?_⟩
    simp

/-- Witness for C1: a "10" status yields the records with no error, a "6"
status yields a nil sequence and an error carrying the server message. -/
theorem recordsList_status_codes_witness :
    RecordsService.List cEx
        (fun _ => .ok resEx { Status := { Code := "10" }, Records := [] }) pEx =
      (some [], some resEx, none) ∧
    (RecordsService.List cEx
        (fun _ => .ok resEx { Status := { Code := "6", Message := "boom" } }) pEx =
      (none, none, some ("could not get domains: " ++ "boom")) ∧
    containsStr ("could not get domains: " ++ "boom") "boom") :=
  ⟨(recordsList_status_codes cEx pEx resEx
      { Status := { Code := "10" }, Records := [] }).1 (Or.inr rfl),
   (recordsList_status_codes cEx pEx resEx
      { Status := { Code := "6", Message := "boom" } }).2 (by decide) (by decide)⟩

/-- C7: RecordsService.Get serializes its integer recordID as a decimal string
into the "record_id" payload field, and on any status code other than "1" it
returns an error whose text contains the server-supplied status message. -/
theorem recordsGet_recordId_and_status (c : Client) (d i : String) (recordID : Int)
    (res : Response) (w : recordWrapper) (h : w.Status.Code ≠ "1") :
    Values.valuesOf (recordGetRequest c d i recordID).payload "record_id" =
      Values.valuesOf c.CommonParams "record_id" ++ [itoa recordID] ∧
    RecordsService.Get c (fun _ => .ok res w) d i recordID =
      (w.Record, none, some ("could not get domains: " ++ w.Status.Message)) ∧
    containsStr ("could not get domains: " ++ w.Status.Message) w.Status.Message := by
  refine ⟨?_, ?_, "could not get domains: ", "", ?_⟩
  · simp [recordGetRequest]
  · simp [RecordsService.Get, h]
  · simp

/-- Witness for C7: the spec scenario — a stub returning status code "6" with
message "no such record" yields an error text containing "no such record". -/
theorem recordsGet_recordId_and_status_witness :
    Values.valuesOf (recordGetRequest cEx "example.com" "42" 7).payload "record_id" =
      Values.valuesOf cEx.CommonParams "record_id" ++ [itoa 7] ∧
    RecordsService.Get cEx
        (fun _ => .ok resEx { Status := { Code := "6", Message := "no such record" } })
        "example.com" "42" 7 =
      ({}, none, some ("could not get domains: " ++ "no such record")) ∧
    containsStr ("could not get domains: " ++ "no such record") "no such record" :=
  recordsGet_recordId_and_status cEx "example.com" "42" 7 resEx
    { Status := { Code := "6", Message := "no such record" } } (by decide)

/-- C10: for every record operation and for DomainsService.List, when the
transport call succeeds but the status-code check fails, the operation returns
a nil transport-level Response alongside the error, discarding the successful
transport response. -/
theorem api_status_error_nil_response (c : Client) (p : ListParams)
    (d i rid : String) (n m : Int) (a : Record) (res : Response)
    (ws : recordsWrapper) (wr wd : recordWrapper) (wm : recordModifyWrapper)
    (wl : domainListWrapper)
    (hs1 : ws.Status.Code ≠ "1") (hs10 : ws.Status.Code ≠ "10")
    (hr : wr.Status.Code ≠ "1") (hd : wd.Status.Code ≠ "1")
    (hm : wm.Status.Code ≠ "1") (hl : wl.Status.Code ≠ "1") :
    RecordsService.List c (fun _ => .ok res ws) p =
      (none, none, some ("could not get domains: " ++ ws.Status.Message)) ∧
    RecordsService.Create c (fun _ => .ok res wr) d i a =
      (wr.Record, none, some ("could not create domains: " ++ wr.Status.Message)) ∧
    RecordsService.Get c (fun _ => .ok res wd) d i n =
      (wd.Record, none, some ("could not get domains: " ++ wd.Status.Message)) ∧
    RecordsService.Update c (fun _ => .ok res wm) i d rid a =
      (wm.Record, none, some ("could not get domains: " ++ wm.Status.Message)) ∧
    RecordsService.Delete c (fun _ => .ok res wd) m d rid =
      (none, some ("could not get domains: " ++ wd.Status.Message)) ∧
    DomainsService.List c (fun _ => .ok res wl) =
      (none, none, some ("could not get domains: " ++ wl.Status.Message)) := by
  refine ⟨?_, ?_, ?_, ?_, ?_, ?_⟩ <;>
    simp [RecordsService.List, RecordsService.Create, RecordsService.Get,
      RecordsService.Update, RecordsService.Delete, DomainsService.List,
      hs1, hs10, hr, hd, hm, hl]

/-- Witness for C10 at concrete failing envelopes (status code "6"). -/
theorem api_status_error_nil_response_witness :
    RecordsService.List cEx (fun _ => .ok resEx { Status := { Code := "6" } }) pEx =
      (none, none, some ("could not get domains: " ++ "")) ∧
    RecordsService.Create cEx (fun _ => .ok resEx { Status := { Code := "6" } })
        "example.com" "42" aEx =
      ({}, none, some ("could not create domains: " ++ "")) ∧
    RecordsService.Get cEx (fun _ => .ok resEx { Status := { Code := "6" } })
        "example.com" "42" 7 =
      ({}, none, some ("could not get domains: " ++ "")) ∧
    RecordsService.Update cEx (fun _ => .ok resEx { Status := { Code := "6" } })
        "42" "example.com" "7" aEx =
      ({}, none, some ("could not get domains: " ++ "")) ∧
    RecordsService.Delete cEx (fun _ => .ok resEx { Status := { Code := "6" } })
        3 "example.com" "7" =
      (none, some ("could not get domains: " ++ "")) ∧
    DomainsService.List cEx (fun _ => .ok resEx { Status := { Code := "6" } }) =
      (none, none, some ("could not get domains: " ++ "")) :=
  api_status_error_nil_response cEx pEx "example.com" "42" "7" 7 3 aEx resEx
    { Status := { Code := "6" } } { Status := { Code := "6" } }
    { Status := { Code := "6" } } { Status := { Code := "6" } }
    { Status := { Code := "6" } }
    (by decide) (by decide) (by decide) (by decide) (by decide) (by decide)

/-- C3: in the Create and Update payloads, an unset Weight (nil pointer)
produces no "weight" key, while an explicit Weight pointing at 0 produces the
key "weight" bound to "0" — unset and zero are distinguished by presence. -/
theorem weight_unset_vs_zero (c : Client) (d i rid : String) (a : Record)
    (h : Values.hasKey c.CommonParams "weight" = false) :
    (a.Weight = none →
      Values.hasKey (recordCreateRequest c d i a).payload "weight" = false ∧
      Values.hasKey (recordUpdateRequest c i d rid a).payload "weight" = false) ∧
    (a.Weight = some 0 →
      Values.valuesOf (recordCreateRequest c d i a).payload "weight" = ["0"] ∧
      Values.valuesOf (recordUpdateRequest c i d rid a).payload "weight" = ["0"]) := by
  have h' : Values.valuesOf c.CommonParams "weight" = [] := (hasKey_eq_false_iff _ _).mp h
  constructor
  · intro hw
    constructor <;> rw [hasKey_eq_false_iff] <;>
      simp [recordCreateRequest, recordUpdateRequest, hw, h']
  · intro hw
    constructor <;>
      (simp [recordCreateRequest, recordUpdateRequest, hw, h', itoa]; rfl)

/-- Witness for C3: with Weight unset no "weight" key is sent, with Weight an
explicit pointer to 0 the payload carries "weight" = "0". -/
theorem weight_unset_vs_zero_witness :
    (Values.hasKey (recordCreateRequest cEx "example.com" "42"
        { Name := "www" }).payload "weight" = false ∧
      Values.hasKey (recordUpdateRequest cEx "42" "example.com" "7"
        { Name := "www" }).payload "weight" = false) ∧
    (Values.valuesOf (recordCreateRequest cEx "example.com" "42" aEx).payload
        "weight" = ["0"] ∧
      Values.valuesOf (recordUpdateRequest cEx "42" "example.com" "7" aEx).payload
        "weight" = ["0"]) :=
  ⟨(weight_unset_vs_zero cEx "example.com" "42" "7" { Name := "www" }
      (by decide)).1 rfl,
   (weight_unset_vs_zero cEx "example.com" "42" "7" aEx (by decide)).2 rfl⟩

/-- C4: in the Create and Update payloads, each optional record attribute
(sub_domain, record_type, record_line, record_line_id, value, mx, ttl, status)
is present exactly when the corresponding input field is non-empty, carrying
that field's value; an empty field contributes no entry at all (in particular
no empty-string entry), provided the common base does not already use these
keys. -/
theorem record_optional_fields_present_iff (c : Client) (d i rid : String) (a : Record)
    (h1 : Values.hasKey c.CommonParams "sub_domain" = false)
    (h2 : Values.hasKey c.CommonParams "record_type" = false)
    (h3 : Values.hasKey c.CommonParams "record_line" = false)
    (h4 : Values.hasKey c.CommonParams "record_line_id" = false)
    (h5 : Values.hasKey c.CommonParams "value" = false)
    (h6 : Values.hasKey c.CommonParams "mx" = false)
    (h7 : Values.hasKey c.CommonParams "ttl" = false)
    (h8 : Values.hasKey c.CommonParams "status" = false) :
    (Values.valuesOf (recordCreateRequest c d i a).payload "sub_domain"
      = if a.Name ≠ "" then [a.Name] else []) ∧
    (Values.valuesOf (recordCreateRequest c d i a).payload "record_type"
      = if a.Type' ≠ "" then [a.Type'] else []) ∧
    (Values.valuesOf (recordCreateRequest c d i a).payload "record_line"
      = if a.Line ≠ "" then [a.Line] else []) ∧
    (Values.valuesOf (recordCreateRequest c d i a).payload "record_line_id"
      = if a.LineID ≠ "" then [a.LineID] else []) ∧
    (Values.valuesOf (recordCreateRequest c d i a).payload "value"
      = if a.Value ≠ "" then [a.Value] else []) ∧
    (Values.valuesOf (recordCreateRequest c d i a).payload "mx"
      = if a.MX ≠ "" then [a.MX] else []) ∧
    (Values.valuesOf (recordCreateRequest c d i a).payload "ttl"
      = if a.TTL ≠ "" then [a.TTL] else []) ∧
    (Values.valuesOf (recordCreateRequest c d i a).payload "status"
      = if a.Status ≠ "" then [a.Status] else []) ∧
    (Values.valuesOf (recordUpdateRequest c i d rid a).payload "sub_domain"
      = if a.Name ≠ "" then [a.Name] else []) ∧
    (Values.valuesOf (recordUpdateRequest c i d rid a).payload "record_type"
      = if a.Type' ≠ "" then [a.Type'] else []) ∧
    (Values.valuesOf (recordUpdateRequest c i d rid a).payload "record_line"
      = if a.Line ≠ "" then [a.Line] else []) ∧
    (Values.valuesOf (recordUpdateRequest c i d rid a).payload "record_line_id"
      = if a.LineID ≠ "" then [a.LineID] else []) ∧
    (Values.valuesOf (recordUpdateRequest c i d rid a).payload "value"
      = if a.Value ≠ "" then [a.Value] else []) ∧
    (Values.valuesOf (recordUpdateRequest c i d rid a).payload "mx"
      = if a.MX ≠ "" then [a.MX] else []) ∧
    (Values.valuesOf (recordUpdateRequest c i d rid a).payload "ttl"
      = if a.TTL ≠ "" then [a.TTL] else []) ∧
    (Values.valuesOf (recordUpdateRequest c i d rid a).payload "status"
      = if a.Status ≠ "" then [a.Status] else []) := by
  have h1' := (hasKey_eq_false_iff _ _).mp h1
  have h2' := (hasKey_eq_false_iff _ _).mp h2
  have h3' := (hasKey_eq_false_iff _ _).mp h3
  have h4' := (hasKey_eq_false_iff _ _).mp h4
  have h5' := (hasKey_eq_false_iff _ _).mp h5
  have h6' := (hasKey_eq_false_iff _ _).mp h6
  have h7' := (hasKey_eq_false_iff _ _).mp h7
  have h8' := (hasKey_eq_false_iff _ _).mp h8
  cases hw : a.Weight <;>
    simp [recordCreateRequest, recordUpdateRequest, hw,
      h1', h2', h3', h4', h5', h6', h7', h8']

/-- Witness for C4 at a record with some fields set and some empty, over a
common base holding only authentication keys. -/
theorem record_optional_fields_present_iff_witness :
    (Values.valuesOf (recordCreateRequest cEx "example.com" "42" aEx).payload
        "sub_domain" = if aEx.Name ≠ "" then [aEx.Name] else []) ∧
    (Values.valuesOf (recordCreateRequest cEx "example.com" "42" aEx).payload
        "record_type" = if aEx.Type' ≠ "" then [aEx.Type'] else []) ∧
    (Values.valuesOf (recordCreateRequest cEx "example.com" "42" aEx).payload
        "record_line" = if aEx.Line ≠ "" then [aEx.Line] else []) ∧
    (Values.valuesOf (recordCreateRequest cEx "example.com" "42" aEx).payload
        "record_line_id" = if aEx.LineID ≠ "" then [aEx.LineID] else []) ∧
    (Values.valuesOf (recordCreateRequest cEx "example.com" "42" aEx).payload
        "value" = if aEx.Value ≠ "" then [aEx.Value] else []) ∧
    (Values.valuesOf (recordCreateRequest cEx "example.com" "42" aEx).payload
        "mx" = if aEx.MX ≠ "" then [aEx.MX] else []) ∧
    (Values.valuesOf (recordCreateRequest cEx "example.com" "42" aEx).payload
        "ttl" = if aEx.TTL ≠ "" then [aEx.TTL] else []) ∧
    (Values.valuesOf (recordCreateRequest cEx "example.com" "42" aEx).payload
        "status" = if aEx.Status ≠ "" then [aEx.Status] else []) ∧
    (Values.valuesOf (recordUpdateRequest cEx "42" "example.com" "7" aEx).payload
        "sub_domain" = if aEx.Name ≠ "" then [aEx.Name] else []) ∧
    (Values.valuesOf (recordUpdateRequest cEx "42" "example.com" "7" aEx).payload
        "record_type" = if aEx.Type' ≠ "" then [aEx.Type'] else []) ∧
    (Values.valuesOf (recordUpdateRequest cEx "42" "example.com" "7" aEx).payload
        "record_line" = if aEx.Line ≠ "" then [aEx.Line] else []) ∧
    (Values.valuesOf (recordUpdateRequest cEx "42" "example.com" "7" aEx).payload
        "record_line_id" = if aEx.LineID ≠ "" then [aEx.LineID] else []) ∧
    (Values.valuesOf (recordUpdateRequest cEx "42" "example.com" "7" aEx).payload
        "value" = if aEx.Value ≠ "" then [aEx.Value] else []) ∧
    (Values.valuesOf (recordUpdateRequest cEx "42" "example.com" "7" aEx).payload
        "mx" = if aEx.MX ≠ "" then [aEx.MX] else []) ∧
    (Values.valuesOf (recordUpdateRequest cEx "42" "example.com" "7" aEx).payload
        "ttl" = if aEx.TTL ≠ "" then [aEx.TTL] else []) ∧
    (Values.valuesOf (recordUpdateRequest cEx "42" "example.com" "7" aEx).payload
        "status" = if aEx.Status ≠ "" then [aEx.Status] else []) :=
  record_optional_fields_present_iff cEx "example.com" "42" "7" aEx
    (by decide) (by decide) (by decide) (by decide)
    (by decide) (by decide) (by decide) (by decide)

/-- C9: when the RecordType filter is non-empty, RecordsService.List adds the
"record_type" key twice with the same value — once through
ListParams.ToURLValues and once again inside List itself. -/
theorem recordsList_duplicate_record_type (c : Client) (p : ListParams)
    (h : p.RecordType ≠ "") :
    Values.valuesOf (recordListRequest c p).payload "record_type" =
      Values.valuesOf c.CommonParams "record_type" ++ [p.RecordType, p.RecordType] := by
  simp [recordListRequest, ListParams.ToURLValues, RecordParam.ToURLValues, h]

/-- Witness for C9: listing with RecordType = "A" sends record_type twice. -/
theorem recordsList_duplicate_record_type_witness :
    Values.valuesOf (recordListRequest cEx pEx).payload "record_type" =
      Values.valuesOf cEx.CommonParams "record_type" ++ [pEx.RecordType, pEx.RecordType] :=
  recordsList_duplicate_record_type cEx pEx (by decide)

end Dnspod
